import Mathlib

/-!
Verification of the gypsum GPS receiver core against its specification.

The definitions below are a shallow embedding of the Python sources:
  src/gypsum/world_model.py  (orbital parameter accumulation)
  src/gypsum/tracker.py      (DLL + Costas PLL tracker)
  src/gypsum/receiver.py     (orchestrator and per-satellite pipeline)

Python floats are modelled as real numbers; Python integers as Int/Nat;
fallible Python code (exceptions) returns Except.  Modules of the
repository that are not part of the given sources (gypsum/utils.py,
gypsum/acquisition.py, gypsum/config.py, gypsum/constants.py, the
navigation bit integrator and message parser) are modelled from the
specification where needed; each such definition is marked.
-/

namespace Gypsum

/-- Python exceptions raised by the modelled code paths.  The message text
is recorded in comments next to each raise site. -/
inductive PyError where
  /-- Raised when a Python call does not bind all required positional
  arguments of the callee. -/
  | typeError : PyError
  /-- Raised by a dict lookup with a missing key. -/
  | keyError : PyError
  /-- Raised explicitly by unfinished code paths. -/
  | notImplementedError : PyError
  deriving DecidableEq, Repr

/-! ## World model (src/gypsum/world_model.py) -/

/-- The six-slot progressive orbital parameter set of world_model.py.
The source keeps a dict from OrbitalParameterType to Optional values,
initialised to None for every key; a record of six Option fields is the
same data. -/
structure OrbitalParameters where
  semi_major_axis : Option ℝ
  eccentricity : Option ℝ
  inclination : Option ℝ
  longitude_of_ascending_node : Option ℝ
  argument_of_perigee : Option ℝ
  mean_anomaly_at_reference_time : Option ℝ


/-- The fresh parameter set produced by the defaultdict factory: every slot
is None. -/
def OrbitalParameters.empty : OrbitalParameters :=
  ⟨none, none, none, none, none, none⟩

/-- world_model.py ParameterSet.is_complete: no slot holds None. -/
def OrbitalParameters.is_complete (p : OrbitalParameters) : Bool :=
  p.semi_major_axis.isSome && p.eccentricity.isSome && p.inclination.isSome &&
    p.longitude_of_ascending_node.isSome && p.argument_of_perigee.isSome &&
    p.mean_anomaly_at_reference_time.isSome

/-- The single-slot time parameter set (week number from subframe 1). -/
structure TimeParameters where
  week_number : Option ℤ


/-- Fresh time parameter set: the week number slot is None. -/
def TimeParameters.empty : TimeParameters := ⟨none⟩

/-- Modelled from the spec: the typed subframe records produced by
gypsum/navigation_message_parser.py (not among the given sources).  Each
constructor carries exactly the fields world_model.py reads from it. -/
inductive NavigationMessageSubframe where
  | one (week_num : ℤ)
  | two (mean_anomaly_at_reference_time : ℝ) (eccentricity : ℝ)
      (sqrt_semi_major_axis : ℝ)
  | three (inclination_angle : ℝ) (argument_of_perigee : ℝ)
      (longitude_of_ascending_node : ℝ)
  | four
  | five

/-- Events returned by GpsWorldModel.handle_subframe_emitted. -/
inductive WorldModelEvent where
  | determinedSatelliteOrbit (satellite_id : ℕ)
      (orbital_parameters : OrbitalParameters)

/-- The satellite id an event refers to. -/
def WorldModelEvent.satellite_id : WorldModelEvent → ℕ
  | .determinedSatelliteOrbit sid _ => sid

/-- world_model.py GpsWorldModel._process_subframe1: records the week
number; orbital parameters untouched. -/
def _process_subframe1 (time : TimeParameters) (week_num : ℤ) : TimeParameters :=
  { time with week_number := some week_num }

/-- world_model.py GpsWorldModel._process_subframe2: fills the mean
anomaly, eccentricity and semi-major axis slots (the satellite transmits
the square root of the semi-major axis, squared on receipt). -/
def _process_subframe2 (orbital : OrbitalParameters)
    (mean_anomaly_at_reference_time eccentricity sqrt_semi_major_axis : ℝ) :
    OrbitalParameters :=
  { orbital with
    mean_anomaly_at_reference_time := some mean_anomaly_at_reference_time
    eccentricity := some eccentricity
    semi_major_axis := some (sqrt_semi_major_axis ^ 2) }

/-- world_model.py GpsWorldModel._process_subframe3: fills the
inclination, argument of perigee and longitude of ascending node slots. -/
def _process_subframe3 (orbital : OrbitalParameters)
    (inclination_angle argument_of_perigee longitude_of_ascending_node : ℝ) :
    OrbitalParameters :=
  { orbital with
    inclination := some inclination_angle
    argument_of_perigee := some argument_of_perigee
    longitude_of_ascending_node := some longitude_of_ascending_node }

/-- world_model.py GpsWorldModel state: per-satellite orbital and time
parameter sets.  The source uses defaultdicts, i.e. total maps whose
missing entries are the empty parameter sets. -/
structure GpsWorldModel where
  satellite_ids_to_orbital_parameters : ℕ → OrbitalParameters
  satellite_ids_to_time_parameters : ℕ → TimeParameters

/-- world_model.py GpsWorldModel.__init__. -/
def GpsWorldModel.init : GpsWorldModel :=
  ⟨fun _ => OrbitalParameters.empty, fun _ => TimeParameters.empty⟩

/-- world_model.py GpsWorldModel.handle_subframe_emitted: routes the
subframe to the per-id processor, then emits DeterminedSatelliteOrbitEvent
exactly when the orbital set was incomplete before the call and is
complete after it. -/
def GpsWorldModel.handle_subframe_emitted (w : GpsWorldModel)
    (satellite_id : ℕ) (subframe : NavigationMessageSubframe) :
    GpsWorldModel × List WorldModelEvent :=
  let orbital := w.satellite_ids_to_orbital_parameters satellite_id
  let time := w.satellite_ids_to_time_parameters satellite_id
  let were_orbit_params_already_complete := orbital.is_complete
  let step : OrbitalParameters × TimeParameters :=
    match subframe with
    | .one week_num => (orbital, _process_subframe1 time week_num)
    | .two m e sqrtA => (_process_subframe2 orbital m e sqrtA, time)
    | .three i aop lan => (_process_subframe3 orbital i aop lan, time)
    | .four => (orbital, time)
    | .five => (orbital, time)
  let w2 : GpsWorldModel :=
    { satellite_ids_to_orbital_parameters := fun sid =>
        if sid = satellite_id then step.1
        else w.satellite_ids_to_orbital_parameters sid
      satellite_ids_to_time_parameters := fun sid =>
        if sid = satellite_id then step.2
        else w.satellite_ids_to_time_parameters sid }
  let events : List WorldModelEvent :=
    if !were_orbit_params_already_complete && step.1.is_complete then
      [WorldModelEvent.determinedSatelliteOrbit satellite_id step.1]
    else []
  (w2, events)

/-- Number of orbit-determined events for a given satellite id in an event
list. -/
def countOrbitDeterminedEvents (satellite_id : ℕ)
    (events : List WorldModelEvent) : ℕ :=
  events.countP (fun e => e.satellite_id = satellite_id)

/-- Feed a trace of (satellite id, subframe) pairs through the world
model, collecting every emitted event in order. -/
def GpsWorldModel.runSubframes (w : GpsWorldModel) :
    List (ℕ × NavigationMessageSubframe) → List WorldModelEvent
  | [] => []
  | (sid, sf) :: rest =>
    let r := w.handle_subframe_emitted sid sf
    r.2 ++ r.1.runSubframes rest

/-! ## Tracker (src/gypsum/tracker.py)

Python floats become real numbers, numpy complex values become ℂ.  The
transcendental functions of the signal path (exp, arctan2, pi, sqrt) force
this part of the embedding to be noncomputable; concrete evaluations in
the theorems below go through simp and norm_num instead of decide. -/

noncomputable section
open Classical

/-- Modelled from the spec: gypsum/constants.py SAMPLES_PER_SECOND (not
among the given sources); the sample rate is the fixed system constant
2.046 MHz. -/
def SAMPLES_PER_SECOND : ℝ := 2046000

/-- Modelled from the spec: gypsum/constants.py SAMPLES_PER_PRN_TRANSMISSION
(not among the given sources); 2046 samples per 1 ms PRN period. -/
def SAMPLES_PER_PRN_TRANSMISSION : ℕ := 2046

/-- numpy mean of a list of reals (np.mean) when the list is nonempty.  The
empty case (NaN in numpy) is handled by explicit nonemptiness conditions at
every use site. -/
def npMean (l : List ℝ) : ℝ := l.sum / l.length

/-- numpy population variance (np.var) when the list is nonempty; the empty
case (NaN in numpy) is handled by explicit nonemptiness conditions at every
use site. -/
def npVar (l : List ℝ) : ℝ :=
  (l.map fun x => (x - npMean l) ^ 2).sum / l.length

/-- Python list slice l[-n:], the last n entries (the whole list when it
is shorter than n). -/
def lastSlice (n : ℕ) (l : List ℝ) : List ℝ := l.drop (l.length - n)

/-- Python float modulo a % b.  The sign of the result follows the
divisor; for b > 0 the result lies in [0, b). -/
def pymod (a b : ℝ) : ℝ := a - b * ⌊a / b⌋

/-- numpy arctan2(y, x): the angle of the point (x, y). -/
def arctan2 (y x : ℝ) : ℝ := Complex.arg ⟨x, y⟩

/-- Python int(np.sign(x)) for a float x: one of 1, -1, 0. -/
def npSign (x : ℝ) : ℤ := if 0 < x then 1 else if x < 0 then -1 else 0

/-- Helper for npArgmax: scan the tail, keeping the index of the first
occurrence of the greatest value seen so far. -/
def argmaxAux (bestIdx : ℕ) (bestVal : ℝ) (curIdx : ℕ) : List ℝ → ℕ
  | [] => bestIdx
  | x :: xs =>
    if bestVal < x then argmaxAux curIdx x (curIdx + 1) xs
    else argmaxAux bestIdx bestVal (curIdx + 1) xs

/-- numpy argmax over a real list: the index of the first occurrence of
the maximum (0 for the empty list). -/
def npArgmax : List ℝ → ℕ
  | [] => 0
  | x :: xs => argmaxAux 0 x 1 xs

/-- numpy roll: element i of the result is element (i - shift) mod n of
the input. -/
def npRoll (l : List ℂ) (shift : ℤ) : List ℂ :=
  (List.range l.length).map fun i =>
    l.getD (((i : ℤ) - shift) % (l.length : ℤ)).toNat 0

/-- Modelled from the spec: gypsum/utils.py frequency_domain_correlation
(not among the given sources).  The spec defines it as
IFFT(FFT(a) * conj(FFT(b))), which equals the circular cross-correlation
written here directly: C[k] is the sum over n of a[(n+k) mod N] times the
conjugate of b[n]. -/
def frequency_domain_correlation (a b : List ℂ) : List ℂ :=
  (List.range a.length).map fun k =>
    ((List.range a.length).map fun n =>
      a.getD ((n + k) % a.length) 0 * (starRingEnd ℂ) (b.getD n 0)).sum

/-- satellite.py GpsSatellite as read by the tracker: the satellite id and
the complex-baseband PRN replica (prn_as_complex). -/
structure GpsSatellite where
  satellite_id : ℕ
  prn_as_complex : List ℂ

/-- tracker.py GpsSatelliteTrackingParameters. -/
structure GpsSatelliteTrackingParameters where
  satellite : GpsSatellite
  current_doppler_shift : ℝ
  current_carrier_wave_phase_shift : ℝ
  current_prn_code_phase_shift : ℤ
  doppler_shifts : List ℝ
  carrier_wave_phases : List ℝ
  carrier_wave_phase_errors : List ℝ
  navigation_bit_pseudosymbols : List ℤ

/-- tracker.py GpsSatelliteTracker: the mutable attributes read or written
by process_samples, _test5 and _is_locked.  The matplotlib figure handles
and the loop gains computed in __init__ (loop_gain_phase, loop_gain_freq:
dead state, since the live path recomputes its gains through
_calculate_loop_filter_alpha_and_beta) are omitted. -/
structure GpsSatelliteTracker where
  tracking_params : GpsSatelliteTrackingParameters
  _is : List ℝ
  _qs : List ℝ
  iq_angles : List ℝ
  carrier_phases : List ℝ

/-- tracker.py _is_locked: the recent I values, self._is[-250:]. -/
def recent_i_values (t : GpsSatelliteTracker) : List ℝ := lastSlice 250 t._is

/-- tracker.py _is_locked: the nonnegative recent I values. -/
def positive_i_values (t : GpsSatelliteTracker) : List ℝ :=
  (recent_i_values t).filter fun x => decide (0 ≤ x)

/-- tracker.py _is_locked: the negative recent I values. -/
def negative_i_values (t : GpsSatelliteTracker) : List ℝ :=
  (recent_i_values t).filter fun x => decide (x < 0)

/-- tracker.py _is_locked: the IQ constellation points complex(i, q) of
the zipped I and Q histories, represented as real pairs. -/
def constellation_points (t : GpsSatelliteTracker) : List (ℝ × ℝ) :=
  t._is.zip t._qs

/-- tracker.py _is_locked: the constellation points with negative real
part. -/
def points_on_left_pole (t : GpsSatelliteTracker) : List (ℝ × ℝ) :=
  (constellation_points t).filter fun p => decide (p.1 < 0)

/-- tracker.py _is_locked: np.mean of the left-pole points (numpy takes
the mean of a complex array componentwise). -/
def left_point (t : GpsSatelliteTracker) : ℝ × ℝ :=
  (npMean ((points_on_left_pole t).map Prod.fst),
   npMean ((points_on_left_pole t).map Prod.snd))

/-- tracker.py _is_locked: angle = 180 - (((arctan2(im, re) / tau) * 360)
% 180) of the left-pole centre of mass. -/
def left_pole_angle (t : GpsSatelliteTracker) : ℝ :=
  180 - pymod (arctan2 (left_point t).2 (left_point t).1 / (2 * Real.pi) * 360) 180

/-- tracker.py _is_locked: centered_angle = angle if angle < 90 else
180 - angle. -/
def centered_angle (t : GpsSatelliteTracker) : ℝ :=
  if left_pole_angle t < 90 then left_pole_angle t else 180 - left_pole_angle t

/-- tracker.py _is_locked, I-channel criterion.  np.var of an empty numpy
array is NaN and every comparison against NaN is false, hence the
nonemptiness conjuncts.  With at most two recorded I values the source
skips the check and defaults to locked-looking. -/
def does_i_channel_look_locked (t : GpsSatelliteTracker) : Prop :=
  if 2 < t._is.length then
    positive_i_values t ≠ [] ∧ negative_i_values t ≠ [] ∧
      (npVar (positive_i_values t) + npVar (negative_i_values t)) / 2 < 2
  else True

/-- tracker.py _is_locked, constellation rotation criterion.  np.mean of
an empty left pole is NaN, which poisons the angle and makes the final
comparison false, hence the nonemptiness conjunct.  Python abs applied to
the boolean comparison, abs(centered_angle < 6), is truthy exactly when
the comparison holds.  With at most two points the source skips the check
and defaults to acceptable. -/
def is_constellation_rotation_acceptable (t : GpsSatelliteTracker) : Prop :=
  if 2 < (constellation_points t).length then
    points_on_left_pole t ≠ [] ∧ centered_angle t < 6
  else True

/-- tracker.py GpsSatelliteTracker._is_locked.  The method returns False
outright when fewer than 250 carrier phase errors have been recorded;
otherwise it demands the phase error variance bound and the two
constellation criteria. -/
def _is_locked (t : GpsSatelliteTracker) : Prop :=
  250 ≤ t.tracking_params.carrier_wave_phase_errors.length ∧
  npVar (lastSlice 250 t.tracking_params.carrier_wave_phase_errors) < 900 ∧
  does_i_channel_look_locked t ∧
  is_constellation_rotation_acceptable t

/-- tracker.py GpsSatelliteTracker._calculate_loop_filter_alpha_and_beta.
The first derivation is computed and immediately overwritten, exactly as
in the source; the returned pair is (loop_gain_phase, loop_gain_freq) =
(alpha, beta) = (4 zeta B T, 4 B^2 T) with zeta = 1/sqrt 2 and
T = 1/SAMPLES_PER_SECOND. -/
def _calculate_loop_filter_alpha_and_beta (loop_bandwidth : ℝ) : ℝ × ℝ :=
  let damping_factor := Real.sqrt 2 / 2
  let natural_freq :=
    loop_bandwidth / (damping_factor * Real.sqrt (1 + damping_factor ^ 2))
  let _loop_gain_freq := 4 * damping_factor * natural_freq /
    (1 + (2 * damping_factor * natural_freq + natural_freq ^ 2))
  let _loop_gain_phase := 4 * natural_freq ^ 2 /
    (1 + (2 * damping_factor * natural_freq + natural_freq ^ 2))
  let time_per_sample := 1 / SAMPLES_PER_SECOND
  let zeta := 1 / Real.sqrt 2
  let loop_gain_phase := 4 * zeta * loop_bandwidth * time_per_sample
  let loop_gain_freq := 4 * loop_bandwidth ^ 2 * time_per_sample
  (loop_gain_phase, loop_gain_freq)

/-- tracker.py GpsSatelliteTracker._test5: the live Costas discriminator
and loop-filter update.  The sample argument is the prompt correlation
peak; the first Python parameter (samples_with_carrier_and_prn_wipeoff)
is unused by the method body. -/
def _test5 (t : GpsSatelliteTracker) (sample : ℂ) : GpsSatelliteTracker :=
  let error := sample.re * sample.im
  let ab := if _is_locked t then _calculate_loop_filter_alpha_and_beta 3
    else _calculate_loop_filter_alpha_and_beta 6
  let p := t.tracking_params
  { t with
    tracking_params := { p with
      current_carrier_wave_phase_shift :=
        pymod (p.current_carrier_wave_phase_shift + error * ab.1) (2 * Real.pi)
      current_doppler_shift := p.current_doppler_shift + error * ab.2
      carrier_wave_phase_errors := p.carrier_wave_phase_errors ++ [error] }
    iq_angles := t.iq_angles ++ [arctan2 sample.im sample.re] }

/-- tracker.py process_samples, carrier wipe-off and code correlation: the
Doppler- and phase-shifted carrier replica is generated over the sample
window (the source fixes the window at SAMPLES_PER_PRN_TRANSMISSION
samples; the embedding uses the length of the sample list), multiplied
into the antenna samples, and circularly correlated against the PRN
replica rolled by the current code phase. -/
def promptCorrelation (t : GpsSatelliteTracker) (seconds_since_start : ℝ)
    (samples : List ℂ) : List ℂ :=
  let params := t.tracking_params
  let time_domain : List ℝ := (List.range samples.length).map fun n =>
    (n : ℝ) / SAMPLES_PER_SECOND + seconds_since_start
  let doppler_shift_carrier : List ℂ := time_domain.map fun τ =>
    Complex.exp (-Complex.I *
      ((2 * Real.pi * params.current_doppler_shift * τ +
        params.current_carrier_wave_phase_shift : ℝ) : ℂ))
  let doppler_shifted_samples := List.zipWith (· * ·) samples doppler_shift_carrier
  let prompt_prn :=
    npRoll params.satellite.prn_as_complex params.current_prn_code_phase_shift
  frequency_domain_correlation doppler_shifted_samples prompt_prn

/-- tracker.py process_samples: the non-coherent peak offset, np.argmax of
the correlation magnitudes. -/
def promptPeakOffset (t : GpsSatelliteTracker) (seconds_since_start : ℝ)
    (samples : List ℂ) : ℕ :=
  npArgmax ((promptCorrelation t seconds_since_start samples).map Complex.abs)

/-- tracker.py process_samples: recentre the peak offset into a signed
range; offsets past half a PRN period count as negative. -/
def centeredPeakOffset (t : GpsSatelliteTracker) (seconds_since_start : ℝ)
    (samples : List ℂ) : ℤ :=
  if (promptPeakOffset t seconds_since_start samples : ℤ) ≤
      (SAMPLES_PER_PRN_TRANSMISSION : ℤ) / 2 then
    (promptPeakOffset t seconds_since_start samples : ℤ)
  else
    (promptPeakOffset t seconds_since_start samples : ℤ) -
      (SAMPLES_PER_PRN_TRANSMISSION : ℤ)

/-- tracker.py process_samples: the coherent prompt correlation peak,
C[argmax of the magnitudes]. -/
def promptPeak (t : GpsSatelliteTracker) (seconds_since_start : ℝ)
    (samples : List ℂ) : ℂ :=
  (promptCorrelation t seconds_since_start samples).getD
    (promptPeakOffset t seconds_since_start samples) 0

/-- tracker.py process_samples before the _test5 call: the DLL code phase
update (slew by one sample toward the recentred peak offset, then wrap
modulo 2046), the pseudosymbol append, and the I and Q history appends. -/
def trackerMidState (t : GpsSatelliteTracker) (seconds_since_start : ℝ)
    (samples : List ℂ) : GpsSatelliteTracker :=
  let centered := centeredPeakOffset t seconds_since_start samples
  let peak := promptPeak t seconds_since_start samples
  let p := t.tracking_params
  let shift1 := p.current_prn_code_phase_shift +
    (if 0 < centered then 1 else if centered < 0 then -1 else 0)
  { t with
    tracking_params := { p with
      current_prn_code_phase_shift := shift1 % (SAMPLES_PER_PRN_TRANSMISSION : ℤ)
      navigation_bit_pseudosymbols := p.navigation_bit_pseudosymbols ++ [npSign peak.re] }
    _is := t._is ++ [peak.re]
    _qs := t._qs ++ [peak.im] }

/-- tracker.py process_samples, state effects of the live plotting block:
every five seconds the carrier phase error history is dropped, and every
second the I, Q, IQ-angle and carrier-phase scratch histories are dropped
after being drawn. -/
def plotBlockEffects (t : GpsSatelliteTracker) (seconds_since_start : ℝ) :
    GpsSatelliteTracker :=
  let t1 := if 4.99 ≤ pymod seconds_since_start 5 then
      { t with tracking_params :=
        { t.tracking_params with carrier_wave_phase_errors := [] } }
    else t
  if pymod seconds_since_start 1 = 0 then
    { t1 with _is := [], _qs := [], iq_angles := [], carrier_phases := [] }
  else t1

/-- tracker.py NavigationBitPseudosymbol. -/
inductive NavigationBitPseudosymbol where
  | MINUS_ONE
  | ONE
  deriving DecidableEq, Repr

/-- tracker.py NavigationBitPseudosymbol.from_val: a dict lookup keyed by
-1 and 1 only; any other value, in particular the 0 produced by
int(np.sign(0.0)), raises KeyError. -/
def NavigationBitPseudosymbol.from_val (val : ℤ) :
    Except PyError NavigationBitPseudosymbol :=
  if val = -1 then .ok .MINUS_ONE
  else if val = 1 then .ok .ONE
  else .error .keyError

/-- tracker.py NavigationBitPseudosymbol.as_val. -/
def NavigationBitPseudosymbol.as_val : NavigationBitPseudosymbol → ℤ
  | .MINUS_ONE => -1
  | .ONE => 1

/-- tracker.py GpsSatelliteTracker.process_samples: one full 1 ms tracking
step.  Returns the mutated tracker together with the outcome of the final
NavigationBitPseudosymbol.from_val lookup; the mutations survive even when
the lookup raises, since they happen on self before the return statement.
The logging at the top of the method and the unused local computations
(samples_with_prn_wiped_off and x) have no state effect and are omitted. -/
def process_samples (t : GpsSatelliteTracker) (seconds_since_start : ℝ)
    (samples : List ℂ) :
    GpsSatelliteTracker × Except PyError NavigationBitPseudosymbol :=
  let peak := promptPeak t seconds_since_start samples
  let navigation_bit_pseudosymbol_value := npSign peak.re
  let t1 := trackerMidState t seconds_since_start samples
  let t2 := _test5 t1 peak
  let t3 := { t2 with
    carrier_phases := t2.carrier_phases ++
      [t2.tracking_params.current_carrier_wave_phase_shift]
    tracking_params := { t2.tracking_params with
      doppler_shifts := t2.tracking_params.doppler_shifts ++
        [t2.tracking_params.current_doppler_shift]
      carrier_wave_phases := t2.tracking_params.carrier_wave_phases ++
        [t2.tracking_params.current_carrier_wave_phase_shift] } }
  let t4 := plotBlockEffects t3 seconds_since_start
  (t4, NavigationBitPseudosymbol.from_val navigation_bit_pseudosymbol_value)

/-- The lock criteria exactly as the specification words them: variance of
the last 250 ms of carrier phase errors below 900, mean of the
positive-half and negative-half variances of the recent prompt I values
below 2, and absolute value of the centred angle of the left-pole
constellation centre of mass below 6 degrees. -/
def specLockCriteria (t : GpsSatelliteTracker) : Prop :=
  npVar (lastSlice 250 t.tracking_params.carrier_wave_phase_errors) < 900 ∧
  (npVar (positive_i_values t) + npVar (negative_i_values t)) / 2 < 2 ∧
  |centered_angle t| < 6

end

/-! ## Receiver orchestrator (src/gypsum/receiver.py) -/

/-- Modelled from the spec: gypsum/config.py ACQUISITION_INTEGRATION_PERIOD_MS
(not among the given sources); the acquisition integration period is
20 ms. -/
def ACQUISITION_INTEGRATION_PERIOD_MS : ℕ := 20

/-- The spec default for the target tracked-satellite count
(configuration key target_tracked_satellites). -/
def specTargetTrackedSatellites : ℕ := 4

/-- Modelled from the spec: gypsum/acquisition.py
SatelliteAcquisitionAttemptResult (not among the given sources), the
acquisition output (satellite id, Doppler shift, carrier phase, code
phase, correlation strength); receiver.py reads the first four fields. -/
structure SatelliteAcquisitionAttemptResult where
  satellite_id : ℕ
  doppler_shift : ℝ
  carrier_wave_phase_shift : ℝ
  prn_phase_shift : ℤ
  correlation_strength : ℝ

/-- receiver.py TrackingState. -/
inductive TrackingState where
  | PROVISIONAL_PROBE
  | LOCKED
  deriving DecidableEq, Repr

/-- Python positional-argument binding: a call supplying `supplied`
positional arguments to a function whose first `required` parameters have
no default values binds successfully exactly when required <= supplied
(no defaults or keyword arguments occur at the modelled call sites);
otherwise Python raises TypeError before the body runs. -/
def pythonPositionalBindOk (required supplied : ℕ) : Bool :=
  decide (required ≤ supplied)

/-- tracker.py GpsSatelliteTracker.__init__ declares exactly two required
positional parameters after self, tracking_params and loop_bandwidth,
neither with a default value. -/
def trackerInitRequiredPositionalParams : ℕ := 2

/-- tracker.py GpsSatelliteTracker.__init__ once its arguments are bound:
stores the tracking parameters and fresh empty histories.  The stored
loop_bandwidth and the two __init__-time loop gains are dead state, see
GpsSatelliteTracker. -/
def GpsSatelliteTracker.init (tracking_params : GpsSatelliteTrackingParameters)
    (_loop_bandwidth : ℝ) : GpsSatelliteTracker :=
  { tracking_params := tracking_params
    _is := [], _qs := [], iq_angles := [], carrier_phases := [] }

/-- receiver.py GpsSatelliteSignalProcessingPipeline.__init__ constructs
the tracker as GpsSatelliteTracker(tracking_params): one positional
argument for an __init__ requiring two, so the binding fails and Python
raises TypeError (missing 1 required positional argument: loop_bandwidth).
The ok branch is unreachable, since pythonPositionalBindOk 2 1 is false;
its placeholder bandwidth 0 is never used. -/
def callGpsSatelliteTrackerWithOnlyTrackingParams
    (tracking_params : GpsSatelliteTrackingParameters) :
    Except PyError GpsSatelliteTracker :=
  if pythonPositionalBindOk trackerInitRequiredPositionalParams 1 then
    .ok (GpsSatelliteTracker.init tracking_params 0)
  else .error .typeError

/-- receiver.py GpsSatelliteSignalProcessingPipeline: the per-satellite
DSP pipeline.  The integrator and decoder members come from modules
outside the given sources and are not read by any modelled path; the
fields kept are the satellite, the tracking state and the tracker. -/
structure GpsSatelliteSignalProcessingPipeline where
  satellite : GpsSatellite
  state : TrackingState
  tracker : GpsSatelliteTracker

/-- receiver.py GpsSatelliteSignalProcessingPipeline.__init__: builds the
GpsSatelliteTrackingParameters from the acquisition result (with fresh
empty histories) and then constructs the tracker through the one-argument
call, which raises TypeError. -/
def GpsSatelliteSignalProcessingPipeline.init (satellite : GpsSatellite)
    (acquisition_result : SatelliteAcquisitionAttemptResult) :
    Except PyError GpsSatelliteSignalProcessingPipeline :=
  let tracking_params : GpsSatelliteTrackingParameters :=
    { satellite := satellite
      current_doppler_shift := acquisition_result.doppler_shift
      current_carrier_wave_phase_shift := acquisition_result.carrier_wave_phase_shift
      current_prn_code_phase_shift := acquisition_result.prn_phase_shift
      doppler_shifts := []
      carrier_wave_phases := []
      carrier_wave_phase_errors := []
      navigation_bit_pseudosymbols := [] }
  (callGpsSatelliteTrackerWithOnlyTrackingParams tracking_params).map
    fun tracker =>
      { satellite := satellite
        state := TrackingState.PROVISIONAL_PROBE
        tracker := tracker }

/-- receiver.py
GpsSatelliteSignalProcessingPipeline._handle_integrator_cannot_determine_bit_phase:
after logging the confidence, the handler raises
NotImplementedError (Satellite should be removed from the tracking pool);
the removal of the satellite from the tracking pool is only a TODO comment
in the source. -/
def _handle_integrator_cannot_determine_bit_phase (_satellite_id : ℕ)
    (_confidence : ℝ) : Except PyError Unit :=
  .error .notImplementedError

/-- receiver.py GpsReceiver state: the satellite replicas, the
eligible-for-acquisition id list, the 20-entry rolling sample deque and
the dict from tracked satellite id to its pipeline (an association list
here). -/
structure GpsReceiver where
  satellites_by_id : ℕ → GpsSatellite
  satellite_ids_eligible_for_acquisition : List ℕ
  rolling_samples_buffer : List (List ℂ)
  tracked_satellite_ids_to_processing_pipelines :
    List (ℕ × GpsSatelliteSignalProcessingPipeline)

/-- collections.deque(maxlen = n) append: the new element goes on the
right and leftmost elements beyond n are discarded. -/
def dequeAppend (maxlen : ℕ) (buffer : List (List ℂ)) (x : List ℂ) :
    List (List ℂ) :=
  let l := buffer ++ [x]
  l.drop (l.length - maxlen)

/-- Python dict assignment d[k] = v on an association list: replaces the
existing entry for k or appends a new one. -/
def dictInsert (l : List (ℕ × GpsSatelliteSignalProcessingPipeline)) (k : ℕ)
    (v : GpsSatelliteSignalProcessingPipeline) :
    List (ℕ × GpsSatelliteSignalProcessingPipeline) :=
  if l.any fun p => p.1 = k then
    l.map fun p => if p.1 = k then (k, v) else p
  else l ++ [(k, v)]

/-- The for-loop of receiver.py _perform_acquisition: construct and
register a pipeline for each acquisition result in order, stopping with
the raised exception when a construction fails (the dict entry is only
assigned after the construction succeeds). -/
def acquisitionResultsLoop (r : GpsReceiver) :
    List SatelliteAcquisitionAttemptResult → GpsReceiver × Option PyError
  | [] => (r, none)
  | result :: rest =>
    match GpsSatelliteSignalProcessingPipeline.init
        (r.satellites_by_id result.satellite_id) result with
    | .ok pipeline =>
      acquisitionResultsLoop
        { r with tracked_satellite_ids_to_processing_pipelines :=
            (dictInsert r.tracked_satellite_ids_to_processing_pipelines
              result.satellite_id pipeline) } rest
    | .error e => (r, some e)

/-- receiver.py GpsReceiver._perform_acquisition.  The detections returned
by satellite_detector.detect_satellites_in_antenna_data are passed in as
an oracle, since gypsum/acquisition.py is not among the given sources (per
the spec the detector returns zero or more acquisition results over the
integration buffer).  When the rolling buffer is not yet primed the
attempt is skipped silently. -/
def GpsReceiver._perform_acquisition (r : GpsReceiver)
    (newly_acquired_satellites : List SatelliteAcquisitionAttemptResult) :
    GpsReceiver × Option PyError :=
  if r.rolling_samples_buffer.length < ACQUISITION_INTEGRATION_PERIOD_MS then
    (r, none)
  else
    acquisitionResultsLoop r newly_acquired_satellites

/-- receiver.py GpsReceiver.step for one millisecond of antenna data: push
the samples into the rolling buffer, then perform an acquisition search
exactly when fewer than 1 satellite is currently tracked — the literal
threshold in the source; the guard comparing against
MINIMUM_TRACKED_SATELLITES_FOR_POSITION_FIX is commented out.  The middle
component of the result records whether the acquisition search was
performed; the last carries the exception, if one was raised, which
propagates out of step before the tracking fan-out (the fan-out depends on
modules outside the given sources and is unreachable while no pipeline can
be constructed). -/
def GpsReceiver.step (r : GpsReceiver) (samples : List ℂ)
    (detections : List SatelliteAcquisitionAttemptResult) :
    GpsReceiver × Bool × Option PyError :=
  let r1 := { r with rolling_samples_buffer :=
    (dequeAppend ACQUISITION_INTEGRATION_PERIOD_MS r.rolling_samples_buffer samples) }
  if r1.tracked_satellite_ids_to_processing_pipelines.length < 1 then
    let ra := r1._perform_acquisition detections
    (ra.1, true, ra.2)
  else (r1, false, none)

/-! ## Concrete states used to instantiate the theorems -/

/-- A fresh tracker over a one-sample PRN replica with empty histories. -/
def exampleFreshTracker : GpsSatelliteTracker :=
  { tracking_params :=
    { satellite := { satellite_id := 32, prn_as_complex := [1] }
      current_doppler_shift := 0
      current_carrier_wave_phase_shift := 0
      current_prn_code_phase_shift := 0
      doppler_shifts := []
      carrier_wave_phases := []
      carrier_wave_phase_errors := []
      navigation_bit_pseudosymbols := [] }
    _is := [], _qs := [], iq_angles := [], carrier_phases := [] }

/-- A tracker state with 250 recorded zero phase errors but only two
recorded I/Q values.  Such states arise in runs of the source: the
per-second plot flush empties the I/Q histories while the phase error
history persists for five seconds.  Its one left-pole point (-1, 1) sits
45 degrees off the pole. -/
def exampleShortIqTracker : GpsSatelliteTracker :=
  { tracking_params :=
    { satellite := { satellite_id := 32, prn_as_complex := [1] }
      current_doppler_shift := 0
      current_carrier_wave_phase_shift := 0
      current_prn_code_phase_shift := 0
      doppler_shifts := []
      carrier_wave_phases := []
      carrier_wave_phase_errors := List.replicate 250 0
      navigation_bit_pseudosymbols := [] }
    _is := [1, -1], _qs := [1, 1], iq_angles := [], carrier_phases := [] }

/-- A tracker state with 250 zero phase errors, the three recorded I
values 1, 2, -1 and zero Q values: every lock criterion is well defined
and satisfied. -/
def exampleLockableTracker : GpsSatelliteTracker :=
  { tracking_params :=
    { satellite := { satellite_id := 32, prn_as_complex := [1] }
      current_doppler_shift := 0
      current_carrier_wave_phase_shift := 0
      current_prn_code_phase_shift := 0
      doppler_shifts := []
      carrier_wave_phases := []
      carrier_wave_phase_errors := List.replicate 250 0
      navigation_bit_pseudosymbols := [] }
    _is := [1, 2, -1], _qs := [0, 0, 0], iq_angles := [], carrier_phases := [] }

/-- A receiver currently tracking the single satellite 7 (a pipeline
record over the fresh tracker): below the spec target of 4 tracked
satellites but not below the source threshold of 1. -/
def exampleReceiverTrackingOne : GpsReceiver :=
  { satellites_by_id := fun sid => { satellite_id := sid, prn_as_complex := [1] }
    satellite_ids_eligible_for_acquisition := [32]
    rolling_samples_buffer := []
    tracked_satellite_ids_to_processing_pipelines :=
      [(7, { satellite := { satellite_id := 7, prn_as_complex := [1] }
             state := TrackingState.PROVISIONAL_PROBE
             tracker := exampleFreshTracker })] }

/-! ## Theorems: world model -/

/-- A complete orbital parameter set stays complete under the subframe 2
slot updates. -/
theorem process_subframe2_preserves_complete (o : OrbitalParameters)
    (m e a : ℝ) (h : o.is_complete = true) :
    (_process_subframe2 o m e a).is_complete = true := by
  simp only [OrbitalParameters.is_complete, _process_subframe2,
    Option.isSome_some, Bool.and_eq_true] at h ⊢
  tauto

/-- A complete orbital parameter set stays complete under the subframe 3
slot updates. -/
theorem process_subframe3_preserves_complete (o : OrbitalParameters)
    (i aop lan : ℝ) (h : o.is_complete = true) :
    (_process_subframe3 o i aop lan).is_complete = true := by
  simp only [OrbitalParameters.is_complete, _process_subframe3,
    Option.isSome_some, Bool.and_eq_true] at h ⊢
  tauto

/-- handle_subframe_emitted never clears an orbital slot: the orbital set
of any satellite that is complete before a call is complete after it. -/
theorem handle_subframe_emitted_preserves_complete (w : GpsWorldModel)
    (sid : ℕ) (sf : NavigationMessageSubframe) (S : ℕ)
    (h : (w.satellite_ids_to_orbital_parameters S).is_complete = true) :
    ((w.handle_subframe_emitted sid sf).1.satellite_ids_to_orbital_parameters
      S).is_complete = true := by
  by_cases hS : S = sid
  · subst hS
    cases sf <;>
      simp [GpsWorldModel.handle_subframe_emitted, h,
        process_subframe2_preserves_complete, process_subframe3_preserves_complete]
  · cases sf <;> simp [GpsWorldModel.handle_subframe_emitted, hS, h]

/-- A single call emits at most one orbit-determined event. -/
theorem handle_events_count_le_one (w : GpsWorldModel) (sid S : ℕ)
    (sf : NavigationMessageSubframe) :
    countOrbitDeterminedEvents S (w.handle_subframe_emitted sid sf).2 ≤ 1 := by
  simp only [GpsWorldModel.handle_subframe_emitted, countOrbitDeterminedEvents]
  split_ifs
  · simp only [List.countP_cons, List.countP_nil]
    split_ifs <;> norm_num
  · simp

/-- A call on a satellite whose orbital set is already complete emits no
orbit-determined event for any satellite id. -/
theorem handle_events_count_zero_of_complete (w : GpsWorldModel) (sid S : ℕ)
    (sf : NavigationMessageSubframe)
    (h : (w.satellite_ids_to_orbital_parameters S).is_complete = true) :
    countOrbitDeterminedEvents S (w.handle_subframe_emitted sid sf).2 = 0 := by
  by_cases hS : sid = S
  · subst hS
    simp [GpsWorldModel.handle_subframe_emitted, countOrbitDeterminedEvents, h]
  · simp only [GpsWorldModel.handle_subframe_emitted, countOrbitDeterminedEvents]
    split_ifs <;> simp [WorldModelEvent.satellite_id, hS]

/-- If a call emits an orbit-determined event for S, the post-state
orbital set of S is complete. -/
theorem handle_emit_implies_complete_after (w : GpsWorldModel) (sid S : ℕ)
    (sf : NavigationMessageSubframe)
    (h : countOrbitDeterminedEvents S (w.handle_subframe_emitted sid sf).2 ≠ 0) :
    ((w.handle_subframe_emitted sid sf).1.satellite_ids_to_orbital_parameters
      S).is_complete = true := by
  simp only [GpsWorldModel.handle_subframe_emitted, countOrbitDeterminedEvents] at h ⊢
  split_ifs at h with hcond
  · have hsid : sid = S := by
      by_contra hne
      simp [WorldModelEvent.satellite_id, hne] at h
    subst hsid
    simp only [Bool.and_eq_true, Bool.not_eq_true'] at hcond
    simp [hcond.2]
  · simp at h

/-- Once the orbital set of S is complete, no later call of a trace emits
an orbit-determined event for S. -/
theorem runSubframes_count_zero_of_complete (w : GpsWorldModel) (S : ℕ)
    (trace : List (ℕ × NavigationMessageSubframe))
    (h : (w.satellite_ids_to_orbital_parameters S).is_complete = true) :
    countOrbitDeterminedEvents S (w.runSubframes trace) = 0 := by
  induction trace generalizing w with
  | nil => simp [GpsWorldModel.runSubframes, countOrbitDeterminedEvents]
  | cons head rest ih =>
    obtain ⟨sid, sf⟩ := head
    have hsplit : countOrbitDeterminedEvents S (w.runSubframes ((sid, sf) :: rest)) =
        countOrbitDeterminedEvents S (w.handle_subframe_emitted sid sf).2 +
          countOrbitDeterminedEvents S
            ((w.handle_subframe_emitted sid sf).1.runSubframes rest) := by
      simp [GpsWorldModel.runSubframes, countOrbitDeterminedEvents, List.countP_append]
    rw [hsplit, handle_events_count_zero_of_complete w sid S sf h,
      ih _ (handle_subframe_emitted_preserves_complete w sid sf S h)]

/-- Over any trace, at most one orbit-determined event is emitted per
satellite id. -/
theorem runSubframes_count_le_one (w : GpsWorldModel)
    (trace : List (ℕ × NavigationMessageSubframe)) (S : ℕ) :
    countOrbitDeterminedEvents S (w.runSubframes trace) ≤ 1 := by
  induction trace generalizing w with
  | nil => simp [GpsWorldModel.runSubframes, countOrbitDeterminedEvents]
  | cons head rest ih =>
    obtain ⟨sid, sf⟩ := head
    have hsplit : countOrbitDeterminedEvents S (w.runSubframes ((sid, sf) :: rest)) =
        countOrbitDeterminedEvents S (w.handle_subframe_emitted sid sf).2 +
          countOrbitDeterminedEvents S
            ((w.handle_subframe_emitted sid sf).1.runSubframes rest) := by
      simp [GpsWorldModel.runSubframes, countOrbitDeterminedEvents, List.countP_append]
    rw [hsplit]
    by_cases hz : countOrbitDeterminedEvents S (w.handle_subframe_emitted sid sf).2 = 0
    · rw [hz]
      simpa using ih _
    · rw [runSubframes_count_zero_of_complete _ S rest
        (handle_emit_implies_complete_after w sid S sf hz)]
      have := handle_events_count_le_one w sid S sf
      omega

/-- C2: GpsWorldModel.handle_subframe_emitted returns a
DeterminedSatelliteOrbitEvent if and only if the call transitions the
orbital parameter set of that satellite from incomplete to complete, and
over any trace of calls the event is emitted at most once per satellite
id, so later overwrites of already-filled slots never re-emit it. -/
theorem orbit_determined_iff_completion_and_at_most_once :
    (∀ (w : GpsWorldModel) (sid : ℕ) (sf : NavigationMessageSubframe),
      (w.handle_subframe_emitted sid sf).2 ≠ [] ↔
        ((w.satellite_ids_to_orbital_parameters sid).is_complete = false ∧
         ((w.handle_subframe_emitted sid sf).1.satellite_ids_to_orbital_parameters
            sid).is_complete = true)) ∧
    (∀ (w : GpsWorldModel) (trace : List (ℕ × NavigationMessageSubframe)) (S : ℕ),
      countOrbitDeterminedEvents S (w.runSubframes trace) ≤ 1) := by
  refine ⟨fun w sid sf => ?_, fun w trace S => runSubframes_count_le_one w trace S⟩
  simp only [GpsWorldModel.handle_subframe_emitted]
  split_ifs with hcond
  · simp only [Bool.and_eq_true, Bool.not_eq_true'] at hcond
    simp [hcond.1, hcond.2]
  · simp only [Bool.and_eq_true, Bool.not_eq_true', not_and] at hcond
    simp only [ne_eq, not_true_eq_false, false_iff, not_and]
    intro h1 h2
    exact absurd (hcond h1) (by simp [h2])

/-! ## Theorems: tracker -/

open Classical

/-- trackerMidState leaves the carrier phase untouched. -/
theorem trackerMidState_phase (t : GpsSatelliteTracker) (s : ℝ)
    (samples : List ℂ) :
    (trackerMidState t s samples).tracking_params.current_carrier_wave_phase_shift =
      t.tracking_params.current_carrier_wave_phase_shift := by
  simp [trackerMidState]

/-- trackerMidState leaves the Doppler shift untouched. -/
theorem trackerMidState_doppler (t : GpsSatelliteTracker) (s : ℝ)
    (samples : List ℂ) :
    (trackerMidState t s samples).tracking_params.current_doppler_shift =
      t.tracking_params.current_doppler_shift := by
  simp [trackerMidState]

/-- trackerMidState performs exactly the DLL code phase update. -/
theorem trackerMidState_code_phase (t : GpsSatelliteTracker) (s : ℝ)
    (samples : List ℂ) :
    (trackerMidState t s samples).tracking_params.current_prn_code_phase_shift =
      (t.tracking_params.current_prn_code_phase_shift +
        (if 0 < centeredPeakOffset t s samples then 1
         else if centeredPeakOffset t s samples < 0 then -1 else 0)) %
        (SAMPLES_PER_PRN_TRANSMISSION : ℤ) := by
  simp [trackerMidState]

/-- Python modulo with a positive divisor, written through Int.fract. -/
theorem pymod_eq_mul_fract (a : ℝ) {b : ℝ} (hb : 0 < b) :
    pymod a b = b * Int.fract (a / b) := by
  unfold pymod Int.fract
  rw [mul_sub, mul_div_cancel₀ a hb.ne']

/-- Python modulo with a positive divisor is nonnegative. -/
theorem pymod_nonneg (a : ℝ) {b : ℝ} (hb : 0 < b) : 0 ≤ pymod a b := by
  rw [pymod_eq_mul_fract a hb]
  exact mul_nonneg hb.le (Int.fract_nonneg _)

/-- Python modulo with a positive divisor stays below the divisor. -/
theorem pymod_lt (a : ℝ) {b : ℝ} (hb : 0 < b) : pymod a b < b := by
  rw [pymod_eq_mul_fract a hb]
  calc b * Int.fract (a / b) < b * 1 := by
        exact (mul_lt_mul_left hb).2 (Int.fract_lt_one _)
    _ = b := mul_one b

/-- The final values of the three mutated tracking scalars after a full
process_samples step: the code phase is slewed toward the recentred peak
offset and wrapped modulo 2046, and the carrier phase and Doppler shift
receive the Costas loop filter update with the bandwidth chosen by the
lock state at the point of the _test5 call. -/
theorem process_samples_fields (t : GpsSatelliteTracker) (s : ℝ)
    (samples : List ℂ) :
    (process_samples t s samples).1.tracking_params.current_carrier_wave_phase_shift =
      pymod (t.tracking_params.current_carrier_wave_phase_shift +
        (promptPeak t s samples).re * (promptPeak t s samples).im *
          (_calculate_loop_filter_alpha_and_beta
            (if _is_locked (trackerMidState t s samples) then 3 else 6)).1)
        (2 * Real.pi) ∧
    (process_samples t s samples).1.tracking_params.current_doppler_shift =
      t.tracking_params.current_doppler_shift +
        (promptPeak t s samples).re * (promptPeak t s samples).im *
          (_calculate_loop_filter_alpha_and_beta
            (if _is_locked (trackerMidState t s samples) then 3 else 6)).2 ∧
    (process_samples t s samples).1.tracking_params.current_prn_code_phase_shift =
      (t.tracking_params.current_prn_code_phase_shift +
        (if 0 < centeredPeakOffset t s samples then 1
         else if centeredPeakOffset t s samples < 0 then -1 else 0)) %
        (SAMPLES_PER_PRN_TRANSMISSION : ℤ) := by
  by_cases hlock : _is_locked (trackerMidState t s samples) <;>
    simp only [process_samples, plotBlockEffects, _test5] <;>
    simp [hlock, trackerMidState_phase, trackerMidState_doppler,
      trackerMidState_code_phase] <;>
    split_ifs <;> simp

/-- C6: after every process_samples call the PRN code phase lies in
[0, 2046) and the carrier wave phase lies in [0, 2 pi). -/
theorem code_phase_and_carrier_phase_in_range (t : GpsSatelliteTracker)
    (s : ℝ) (samples : List ℂ) :
    (0 ≤ (process_samples t s samples).1.tracking_params.current_prn_code_phase_shift ∧
      (process_samples t s samples).1.tracking_params.current_prn_code_phase_shift < 2046) ∧
    0 ≤ (process_samples t s samples).1.tracking_params.current_carrier_wave_phase_shift ∧
      (process_samples t s samples).1.tracking_params.current_carrier_wave_phase_shift <
        2 * Real.pi := by
  obtain ⟨hphase, -, hcode⟩ := process_samples_fields t s samples
  rw [hcode, hphase]
  have h2046 : ((SAMPLES_PER_PRN_TRANSMISSION : ℕ) : ℤ) = 2046 := by
    norm_num [SAMPLES_PER_PRN_TRANSMISSION]
  rw [h2046]
  exact ⟨⟨Int.emod_nonneg _ (by norm_num), Int.emod_lt_of_pos _ (by norm_num)⟩,
    pymod_nonneg _ Real.two_pi_pos, pymod_lt _ Real.two_pi_pos⟩

/-- C7: lock determination requires at least 250 ms of history; with fewer
than 250 recorded carrier phase errors _is_locked reports not locked. -/
theorem not_locked_of_short_history (t : GpsSatelliteTracker)
    (h : t.tracking_params.carrier_wave_phase_errors.length < 250) :
    ¬ _is_locked t := fun hl => absurd hl.1 (by omega)

/-- Witness for C7 at the fresh tracker, whose error history is empty. -/
theorem not_locked_of_short_history_witness :
    exampleFreshTracker.tracking_params.carrier_wave_phase_errors.length < 250 ∧
      ¬ _is_locked exampleFreshTracker :=
  ⟨by norm_num [exampleFreshTracker],
    not_locked_of_short_history exampleFreshTracker
      (by norm_num [exampleFreshTracker])⟩

/-- C8: the peak offset argmax of the correlation magnitudes is recentred
into a signed range (an offset past 1023 has a full PRN period of 2046
subtracted), the code phase then moves by exactly +1, -1 or 0 samples
according to the sign of the recentred offset, and is wrapped modulo
2046. -/
theorem code_phase_slew_by_recentred_peak_sign (t : GpsSatelliteTracker)
    (s : ℝ) (samples : List ℂ) :
    centeredPeakOffset t s samples =
      (if (promptPeakOffset t s samples : ℤ) ≤ 1023
       then (promptPeakOffset t s samples : ℤ)
       else (promptPeakOffset t s samples : ℤ) - 2046) ∧
    (process_samples t s samples).1.tracking_params.current_prn_code_phase_shift =
      (t.tracking_params.current_prn_code_phase_shift +
        (if 0 < centeredPeakOffset t s samples then 1
         else if centeredPeakOffset t s samples < 0 then -1 else 0)) % 2046 := by
  constructor
  · simp only [centeredPeakOffset, SAMPLES_PER_PRN_TRANSMISSION]
    norm_num
  · have h := (process_samples_fields t s samples).2.2
    rw [h]
    norm_num [SAMPLES_PER_PRN_TRANSMISSION]

/-- C9: each tracking step applies the canonical loop filter gains
alpha = 4 zeta B T and beta = 4 B^2 T with zeta = sqrt 2 / 2 and
T = 1 / SAMPLES_PER_SECOND, where the bandwidth B is 3 Hz when the
tracker is locked and 6 Hz when it is not; the phase update is
phi := (phi + alpha e) mod 2 pi and the Doppler update is
fd := fd + beta e, with e the Costas discriminator I times Q of the
prompt peak. -/
theorem loop_filter_gains_and_updates (t : GpsSatelliteTracker) (s : ℝ)
    (samples : List ℂ) :
    (_calculate_loop_filter_alpha_and_beta
        (if _is_locked (trackerMidState t s samples) then 3 else 6)).1 =
      4 * (Real.sqrt 2 / 2) *
        (if _is_locked (trackerMidState t s samples) then 3 else 6) *
        (1 / SAMPLES_PER_SECOND) ∧
    (_calculate_loop_filter_alpha_and_beta
        (if _is_locked (trackerMidState t s samples) then 3 else 6)).2 =
      4 * (if _is_locked (trackerMidState t s samples) then 3 else 6) ^ 2 *
        (1 / SAMPLES_PER_SECOND) ∧
    (process_samples t s samples).1.tracking_params.current_carrier_wave_phase_shift =
      pymod (t.tracking_params.current_carrier_wave_phase_shift +
        (promptPeak t s samples).re * (promptPeak t s samples).im *
          (_calculate_loop_filter_alpha_and_beta
            (if _is_locked (trackerMidState t s samples) then 3 else 6)).1)
        (2 * Real.pi) ∧
    (process_samples t s samples).1.tracking_params.current_doppler_shift =
      t.tracking_params.current_doppler_shift +
        (promptPeak t s samples).re * (promptPeak t s samples).im *
          (_calculate_loop_filter_alpha_and_beta
            (if _is_locked (trackerMidState t s samples) then 3 else 6)).2 := by
  have key : (1 : ℝ) / Real.sqrt 2 = Real.sqrt 2 / 2 := by
    have hne : Real.sqrt 2 ≠ 0 := by positivity
    field_simp
  refine ⟨?_, ?_, (process_samples_fields t s samples).1,
    (process_samples_fields t s samples).2.1⟩
  · simp only [_calculate_loop_filter_alpha_and_beta, key]
  · simp only [_calculate_loop_filter_alpha_and_beta]

/-- The reciprocal of the square root of two, rationalised. -/
theorem one_div_sqrt_two_eq : (1 : ℝ) / Real.sqrt 2 = Real.sqrt 2 / 2 := by
  have hne : Real.sqrt 2 ≠ 0 := by positivity
  field_simp

/-- arcsin at the sine of 45 degrees. -/
theorem arcsin_sqrt_two_div_two : Real.arcsin (Real.sqrt 2 / 2) = Real.pi / 4 := by
  rw [← Real.sin_pi_div_four]
  exact Real.arcsin_sin (by linarith [Real.pi_pos]) (by linarith [Real.pi_pos])

/-- arctan2 at the point (-1, 1): three quarters of pi. -/
theorem arctan2_one_neg_one : arctan2 1 (-1) = 3 * Real.pi / 4 := by
  unfold arctan2
  rw [Complex.arg_of_re_neg_of_im_nonneg (by norm_num) (by norm_num)]
  have habs : Complex.abs ⟨-1, 1⟩ = Real.sqrt 2 := by
    rw [Complex.abs_apply, Complex.normSq_mk]
    norm_num
  have him : (-(⟨-1, 1⟩ : ℂ)).im = -1 := by simp
  rw [him, habs, neg_div, Real.arcsin_neg, one_div_sqrt_two_eq,
    arcsin_sqrt_two_div_two]
  ring

/-- The numpy variance of a run of zeros is zero. -/
theorem npVar_replicate_zero (n : ℕ) : npVar (List.replicate n (0 : ℝ)) = 0 := by
  unfold npVar npMean
  simp

/-- The centred angle is never negative: the raw angle lies in (0, 180],
so both branches of the centring land in [0, 90). -/
theorem centered_angle_nonneg (t : GpsSatelliteTracker) :
    0 ≤ centered_angle t := by
  have h1 := pymod_lt
    (arctan2 (left_point t).2 (left_point t).1 / (2 * Real.pi) * 360)
    (show (0 : ℝ) < 180 by norm_num)
  have h0 := pymod_nonneg
    (arctan2 (left_point t).2 (left_point t).1 / (2 * Real.pi) * 360)
    (show (0 : ℝ) < 180 by norm_num)
  unfold centered_angle left_pole_angle
  split_ifs <;> linarith

/-- The returned value of process_samples is the from_val lookup at the
sign of the real part of the prompt peak. -/
theorem process_samples_snd (t : GpsSatelliteTracker) (s : ℝ)
    (samples : List ℂ) :
    (process_samples t s samples).2 =
      NavigationBitPseudosymbol.from_val (npSign (promptPeak t s samples).re) :=
  rfl

/-- C4 (amended): for tracker states with at least 250 ms of carrier phase
error history, more than two recorded I values, more than two
constellation points, and nonempty positive-I, negative-I and left-pole
classes (so that no numpy variance or mean is taken over an empty array),
_is_locked holds exactly when the three spec criteria hold; the absolute
value in the angle criterion is redundant because the centred angle is
never negative.  With two or fewer I values or points the source skips
the corresponding criteria and treats them as satisfied. -/
theorem is_locked_iff_spec_criteria (t : GpsSatelliteTracker)
    (h1 : 250 ≤ t.tracking_params.carrier_wave_phase_errors.length)
    (h2 : 2 < t._is.length)
    (h3 : 2 < (constellation_points t).length)
    (h4 : positive_i_values t ≠ [])
    (h5 : negative_i_values t ≠ [])
    (h6 : points_on_left_pole t ≠ []) :
    _is_locked t ↔ specLockCriteria t := by
  unfold _is_locked specLockCriteria does_i_channel_look_locked
    is_constellation_rotation_acceptable
  rw [if_pos h2, if_pos h3, abs_of_nonneg (centered_angle_nonneg t)]
  constructor
  · rintro ⟨-, hv, ⟨-, -, hs⟩, -, hc⟩
    exact ⟨hv, hs, hc⟩
  · rintro ⟨hv, hs, hc⟩
    exact ⟨h1, hv, ⟨h4, h5, hs⟩, h6, hc⟩

/-- The single left-pole point of exampleShortIqTracker. -/
theorem exampleShortIqTracker_left_pole :
    points_on_left_pole exampleShortIqTracker = [((-1 : ℝ), (1 : ℝ))] := by
  norm_num [points_on_left_pole, constellation_points, exampleShortIqTracker,
    List.zip_cons_cons, List.filter_cons, decide_eq_true_eq]

/-- The left-pole centre of mass of exampleShortIqTracker. -/
theorem exampleShortIqTracker_left_point :
    left_point exampleShortIqTracker = (-1, 1) := by
  unfold left_point
  rw [exampleShortIqTracker_left_pole]
  norm_num [npMean]

/-- The centred constellation angle of exampleShortIqTracker is 45
degrees. -/
theorem exampleShortIqTracker_centered_angle :
    centered_angle exampleShortIqTracker = 45 := by
  have hdeg : arctan2 (left_point exampleShortIqTracker).2
      (left_point exampleShortIqTracker).1 / (2 * Real.pi) * 360 = 135 := by
    rw [exampleShortIqTracker_left_point]
    rw [show ((-1 : ℝ), (1 : ℝ)).2 = 1 from rfl,
      show ((-1 : ℝ), (1 : ℝ)).1 = -1 from rfl, arctan2_one_neg_one]
    have hpi := Real.pi_ne_zero
    field_simp
    ring
  have hfloor : ⌊(135 : ℝ) / 180⌋ = 0 := by
    rw [Int.floor_eq_zero_iff, Set.mem_Ico]
    norm_num
  have hangle : left_pole_angle exampleShortIqTracker = 45 := by
    unfold left_pole_angle pymod
    rw [hdeg, hfloor]
    norm_num
  unfold centered_angle
  rw [hangle]
  norm_num

/-- C4 counterexample: exampleShortIqTracker has a full 250 ms of phase
error history and _is_locked returns True there (with only two recorded
I/Q values the I-channel and constellation criteria are skipped), yet the
spec criteria fail, since the centred angle of the left-pole centre of
mass is 45 degrees, far above 6. -/
theorem is_locked_at_state_violating_spec_criteria :
    _is_locked exampleShortIqTracker ∧ ¬ specLockCriteria exampleShortIqTracker := by
  constructor
  · refine ⟨by norm_num [exampleShortIqTracker], ?_, ?_, ?_⟩
    · have hslice : lastSlice 250
          exampleShortIqTracker.tracking_params.carrier_wave_phase_errors =
          List.replicate 250 0 := by
        unfold lastSlice
        rw [show exampleShortIqTracker.tracking_params.carrier_wave_phase_errors =
          List.replicate 250 (0 : ℝ) from rfl]
        rw [List.length_replicate, Nat.sub_self, List.drop_zero]
      rw [hslice, npVar_replicate_zero]
      norm_num
    · have hc : ¬ (2 < exampleShortIqTracker._is.length) := by
        norm_num [exampleShortIqTracker]
      unfold does_i_channel_look_locked
      rw [if_neg hc]
      trivial
    · have hc : ¬ (2 < (constellation_points exampleShortIqTracker).length) := by
        norm_num [constellation_points, exampleShortIqTracker]
      unfold is_constellation_rotation_acceptable
      rw [if_neg hc]
      trivial
  · intro h
    have h3 := h.2.2
    rw [exampleShortIqTracker_centered_angle] at h3
    norm_num at h3

/-- Witness for the amended C4 at exampleLockableTracker: every
hypothesis holds there, and the theorem yields the equivalence. -/
theorem is_locked_iff_spec_criteria_witness :
    (250 ≤ exampleLockableTracker.tracking_params.carrier_wave_phase_errors.length ∧
     2 < exampleLockableTracker._is.length ∧
     2 < (constellation_points exampleLockableTracker).length ∧
     positive_i_values exampleLockableTracker ≠ [] ∧
     negative_i_values exampleLockableTracker ≠ [] ∧
     points_on_left_pole exampleLockableTracker ≠ []) ∧
    (_is_locked exampleLockableTracker ↔ specLockCriteria exampleLockableTracker) := by
  have h1 : 250 ≤ exampleLockableTracker.tracking_params.carrier_wave_phase_errors.length := by
    norm_num [exampleLockableTracker]
  have h2 : 2 < exampleLockableTracker._is.length := by
    norm_num [exampleLockableTracker]
  have h3 : 2 < (constellation_points exampleLockableTracker).length := by
    norm_num [constellation_points, exampleLockableTracker]
  have h4 : positive_i_values exampleLockableTracker ≠ [] := by
    norm_num [positive_i_values, recent_i_values, lastSlice, exampleLockableTracker,
      List.filter_cons, decide_eq_true_eq]
    simp
  have h5 : negative_i_values exampleLockableTracker ≠ [] := by
    norm_num [negative_i_values, recent_i_values, lastSlice, exampleLockableTracker,
      List.filter_cons, decide_eq_true_eq]
  have h6 : points_on_left_pole exampleLockableTracker ≠ [] := by
    norm_num [points_on_left_pole, constellation_points, exampleLockableTracker,
      List.zip_cons_cons, List.filter_cons, decide_eq_true_eq]
  exact ⟨⟨h1, h2, h3, h4, h5, h6⟩,
    is_locked_iff_spec_criteria exampleLockableTracker h1 h2 h3 h4 h5 h6⟩

/-- The prompt correlation of the fresh tracker over the single sample i:
the zero Doppler and phase make the carrier replica equal one, and the
unit PRN replica leaves the mixed sample as the only correlation value. -/
theorem promptCorrelation_fresh_I :
    promptCorrelation exampleFreshTracker 0 [Complex.I] = [Complex.I] := by
  have hr : List.range 1 = [0] := rfl
  unfold promptCorrelation
  simp only [exampleFreshTracker, List.length_singleton, hr, List.map_cons,
    List.map_nil]
  norm_num
  have hroll : npRoll [(1 : ℂ)] 0 = [1] := by
    unfold npRoll
    norm_num [hr]
  rw [hroll]
  unfold frequency_domain_correlation
  norm_num [hr]

/-- The prompt correlation peak of the fresh tracker over the single
sample i. -/
theorem promptPeak_fresh_I :
    promptPeak exampleFreshTracker 0 [Complex.I] = Complex.I := by
  unfold promptPeak promptPeakOffset
  rw [promptCorrelation_fresh_I]
  simp [npArgmax, argmaxAux]

/-- C5 counterexample: at a prompt correlation peak with zero real part
(the peak is the purely imaginary i here) the pseudosymbol lookup raises
KeyError instead of emitting +1. -/
theorem zero_peak_real_part_raises_keyerror :
    (promptPeak exampleFreshTracker 0 [Complex.I]).re = 0 ∧
    (process_samples exampleFreshTracker 0 [Complex.I]).2 =
      Except.error PyError.keyError := by
  refine ⟨by rw [promptPeak_fresh_I]; simp, ?_⟩
  rw [process_samples_snd, promptPeak_fresh_I]
  simp [npSign, NavigationBitPseudosymbol.from_val]

/-- C5 (amended): the returned pseudosymbol is sign(Re P) with value in
{-1, +1} whenever the real part of the prompt peak is nonzero; a zero
real part instead raises KeyError from the from_val dict lookup, rather
than being treated as +1. -/
theorem pseudosymbol_is_sign_of_peak_or_keyerror (t : GpsSatelliteTracker)
    (s : ℝ) (samples : List ℂ) :
    (process_samples t s samples).2 =
      (if 0 < (promptPeak t s samples).re then
        Except.ok NavigationBitPseudosymbol.ONE
       else if (promptPeak t s samples).re < 0 then
        Except.ok NavigationBitPseudosymbol.MINUS_ONE
       else Except.error PyError.keyError) ∧
    ∀ r : NavigationBitPseudosymbol, r.as_val = -1 ∨ r.as_val = 1 := by
  constructor
  · rw [process_samples_snd]
    unfold npSign
    split_ifs <;> simp [NavigationBitPseudosymbol.from_val]
  · intro r
    cases r <;> simp [NavigationBitPseudosymbol.as_val]

/-! ## Theorems: receiver -/

/-- C1: constructing a GpsSatelliteSignalProcessingPipeline raises
TypeError for every acquisition result, because the pipeline constructor
passes only tracking_params to a GpsSatelliteTracker.__init__ that also
requires loop_bandwidth; consequently _perform_acquisition never adds a
satellite to the tracked pool, whatever the detector returns. -/
theorem pipeline_construction_always_raises_typeerror :
    (∀ (satellite : GpsSatellite) (acq : SatelliteAcquisitionAttemptResult),
      GpsSatelliteSignalProcessingPipeline.init satellite acq =
        Except.error PyError.typeError) ∧
    (∀ (r : GpsReceiver) (detections : List SatelliteAcquisitionAttemptResult),
      (r._perform_acquisition detections).1.tracked_satellite_ids_to_processing_pipelines =
        r.tracked_satellite_ids_to_processing_pipelines) := by
  have hinit : ∀ (satellite : GpsSatellite)
      (acq : SatelliteAcquisitionAttemptResult),
      GpsSatelliteSignalProcessingPipeline.init satellite acq =
        Except.error PyError.typeError := fun _ _ => rfl
  refine ⟨hinit, fun r detections => ?_⟩
  unfold GpsReceiver._perform_acquisition
  split_ifs
  · rfl
  · cases detections with
    | nil => rfl
    | cons d rest => simp only [acquisitionResultsLoop, hinit]

/-- C3 (the code as written, against the claimed spec intent): the
CannotDetermineBitPhase handler raises NotImplementedError, here
evaluated for satellite 32 at confidence one half, instead of removing
the pipeline and returning the satellite to the eligible set. -/
theorem cannot_determine_bit_phase_handler_raises :
    _handle_integrator_cannot_determine_bit_phase 32 (1 / 2) =
      Except.error PyError.notImplementedError := rfl

/-- C10 counterexample: with one satellite tracked the count is below the
spec default target of 4, yet the step performs no acquisition search,
because the source compares the tracked count against the literal 1. -/
theorem no_acquisition_search_when_tracking_one :
    (exampleReceiverTrackingOne.step [] []).2.1 = false ∧
    exampleReceiverTrackingOne.tracked_satellite_ids_to_processing_pipelines.length <
      specTargetTrackedSatellites := by
  exact ⟨rfl, by norm_num [exampleReceiverTrackingOne, specTargetTrackedSatellites]⟩

/-- C10 (amended): a receiver step performs the acquisition search if and
only if the number of currently tracked satellites is below 1, i.e. only
when no satellite is tracked at all; the source hardcodes the threshold 1
in place of the configurable spec target whose default is 4. -/
theorem acquisition_search_iff_no_tracked_satellites (r : GpsReceiver)
    (samples : List ℂ) (detections : List SatelliteAcquisitionAttemptResult) :
    (r.step samples detections).2.1 = true ↔
      r.tracked_satellite_ids_to_processing_pipelines.length < 1 := by
  unfold GpsReceiver.step
  by_cases h : r.tracked_satellite_ids_to_processing_pipelines.length < 1 <;>
    simp [h]

end Gypsum
